/-
Verification of the medical_knowledge_agent repository core logic.

The Python sources (src/utils.py, src/risk_engine.py, src/safety_guard.py,
src/term_mapper.py, src/rag_service.py, src/config.py) are shallowly embedded:

* Python `str` is modelled as `List Char` (`Str` below); string literals are
  written as `"...".data`.  Python substring / strip / split / replace / lower
  are modelled by the `py*` helpers, which follow CPython semantics for the
  inputs that occur in this code base (non-empty patterns, ASCII case folding).
* Python floats that only ever hold exact decimal clinical quantities (blood
  pressure, HbA1c, scores) are modelled as `ℚ`; all comparisons in the source
  are order comparisons on such exact values.
* Python dicts that are used in insertion order are modelled as association
  lists (`dictGet` / `dictSet` mirror `d[k]` / `d[k] = v`).
* `datetime.now()`-derived follow-up dates are threaded through as an explicit
  `now_plus : ℕ → Str` parameter (days offset ↦ formatted date).
* Values read with `.get(key, default)` are modelled as `Option` fields read
  with `getD`; Python truthiness of possibly-missing strings / numbers is
  modelled by `truthyStr` / `truthyRat`.
-/
import Mathlib

/-- Python strings are modelled as lists of unicode code points. -/
abbrev Str : Type := List Char

/-- `startsWithStr s pat` : does `s` start with `pat`? -/
def startsWithStr : Str → Str → Bool
  | _, [] => true
  | [], _ :: _ => false
  | c :: s, p :: ps => c == p && startsWithStr s ps

/-- Python `pat in s` (substring containment). -/
def containsStr : Str → Str → Bool
  | [], pat => pat.isEmpty
  | c :: t, pat => startsWithStr (c :: t) pat || containsStr t pat

/-- Python default `str.strip` whitespace class (ASCII part, which is all the
code base ever strips). -/
def isPySpace (c : Char) : Bool :=
  c == ' ' || c == '\t' || c == '\n' || c == '\r' || c == '\x0b' || c == '\x0c'

/-- Python `str.strip()`. -/
def pyStrip (s : Str) : Str :=
  ((s.dropWhile isPySpace).reverse.dropWhile isPySpace).reverse

/-- Python `str.lower()` (ASCII case folding; CJK characters are fixed). -/
def pyLower (s : Str) : Str := s.map Char.toLower

/-- Python `s.split(sep)` for a one-character separator. -/
def splitOnChar (sep : Char) : Str → List Str
  | [] => [[]]
  | c :: t =>
    if c == sep then [] :: splitOnChar sep t
    else
      match splitOnChar sep t with
      | [] => [[c]]
      | h :: r => (c :: h) :: r

/-- Fuel-bounded body of `pyReplace`.  Each step consumes at least one
character of `s` (the pattern is non-empty in the match branch), so fuel
`s.length` is always sufficient; the fuel only serves to make the recursion
structural. -/
def pyReplaceAux (pat rep : Str) : ℕ → Str → Str
  | 0, s => s
  | fuel + 1, s =>
    if pat.isEmpty then s
    else if startsWithStr s pat then
      rep ++ pyReplaceAux pat rep fuel (s.drop pat.length)
    else
      match s with
      | [] => []
      | c :: t => c :: pyReplaceAux pat rep fuel t

/-- Python `s.replace(pat, rep)` : replace all non-overlapping occurrences,
left to right.  (For the empty pattern — which never occurs in the mapping
tables — this model returns `s` unchanged.) -/
def pyReplace (pat rep : Str) (s : Str) : Str :=
  pyReplaceAux pat rep s.length s

/-- Python dict lookup `d.get(k)` on an insertion-ordered association list. -/
def dictGet {β : Type} : List (Str × β) → Str → Option β
  | [], _ => none
  | (k0, v) :: t, k => if k0 = k then some v else dictGet t k

/-- Python dict assignment `d[k] = v`: updates the value in place if the key
exists (keeping its position), otherwise appends the new pair. -/
def dictSet {β : Type} : List (Str × β) → Str → β → List (Str × β)
  | [], k, v => [(k, v)]
  | (k0, v0) :: t, k, v =>
    if k0 = k then (k, v) :: t else (k0, v0) :: dictSet t k v

/-- Truthiness of a possibly-missing Python string. -/
def truthyStr : Option Str → Bool
  | none => false
  | some s => !s.isEmpty

/-- Truthiness of a possibly-missing Python number. -/
def truthyRat : Option ℚ → Bool
  | none => false
  | some v => v != 0

/-- `float(x) if x else None` (used for the glucose display values). -/
def detruthyRat (x : Option ℚ) : Option ℚ :=
  if truthyRat x then x else none

/-- Rendering of a numeric value inside an f-string (`f"{x}"`).  CPython
prints floats with a trailing `.0`; this model prints the exact rational.
No theorem below depends on the rendered digits. -/
def ratStr (q : ℚ) : Str := (toString q).data

/-- Rendering of an integer inside an f-string. -/
def natStr (n : ℕ) : Str := (toString n).data

/-! ## src/utils.py -/

/-- Return value of `classify_bp` (`{"level": .., "name": .., "description": ..}`). -/
structure BPClassification where
  level : ℚ
  name : Str
  description : Str
deriving DecidableEq, Repr

/-- `utils.classify_bp` — hypertension grading. -/
def classify_bp (sbp dbp : ℚ) : BPClassification :=
  if sbp < 120 ∧ dbp < 80 then
    ⟨0, "正常血压".data, "理想血压水平".data⟩
  else if sbp < 140 ∧ dbp < 90 then
    ⟨mkRat 1 2, "正常高值".data, "血压偏高，需注意".data⟩
  else if sbp < 160 ∧ dbp < 100 then
    ⟨1, "1级高血压".data, "轻度高血压".data⟩
  else if sbp < 180 ∧ dbp < 110 then
    ⟨2, "2级高血压".data, "中度高血压".data⟩
  else
    ⟨3, "3级高血压".data, "重度高血压".data⟩

/-- Return value of `classify_hba1c`. -/
structure HbA1cClassification where
  level : Str
  description : Str
deriving DecidableEq, Repr

/-- `utils.classify_hba1c` — glycated haemoglobin grading. -/
def classify_hba1c (hba1c : ℚ) : HbA1cClassification :=
  if hba1c < mkRat 57 10 then ⟨"正常".data, "血糖控制正常".data⟩
  else if hba1c < mkRat 65 10 then ⟨"糖尿病前期".data, "需要加强生活方式干预".data⟩
  else if hba1c < 7 then ⟨"控制良好".data, "糖尿病控制良好".data⟩
  else if hba1c < 8 then ⟨"控制一般".data, "需要加强治疗".data⟩
  else ⟨"控制不佳".data, "需要强化治疗，考虑调整方案".data⟩

/-! ## Patient snapshot data model (fields as read by the embedded code) -/

/-- `profile["basic_info"]` as read by the risk engine and the RAG formatter. -/
structure BasicInfo where
  name : Option Str
  gender : Option Str
  age : Option ℕ
  bmi : Option ℚ
deriving DecidableEq, Repr

/-- A `basic_info` dict with none of the read keys present. -/
def emptyBasicInfo : BasicInfo := ⟨none, none, none, none⟩

/-- `profile["hypertension_assessment"]` as read by the embedded code. -/
structure HypertensionAssessment where
  sbp : Option ℚ
  dbp : Option ℚ
  risk_factors : Option Str
  target_organs_damage : Option Str
  clinical_conditions : Option Str
  risk_level : Option Str
deriving DecidableEq, Repr

/-- `profile["diabetes_assessment"]` as read by the embedded code. -/
structure DiabetesAssessment where
  hba1c : Option ℚ
  fasting_glucose : Option ℚ
  postprandial_glucose : Option ℚ
  insulin_usage : Option Bool
  control_status : Option Str
deriving DecidableEq, Repr

/-- One entry of `profile["diagnoses"]`. -/
structure Diagnosis where
  diagnosis_name : Option Str
deriving DecidableEq, Repr

/-- One entry of `profile["medical_records"]`. -/
structure MedicalRecord where
  chief_complaint : Option Str
  present_illness : Option Str
  past_history : Option Str
deriving DecidableEq, Repr

/-- One entry of `profile["medications"]`. -/
structure Medication where
  drug_name : Option Str
  drug_class : Option Str
deriving DecidableEq, Repr

/-- The patient snapshot (`profile` dict).  A missing or empty (falsy)
sub-dict is modelled as `none`; absent list keys are modelled as `[]`. -/
structure Profile where
  basic_info : Option BasicInfo
  hypertension_assessment : Option HypertensionAssessment
  diabetes_assessment : Option DiabetesAssessment
  diagnoses : List Diagnosis
  medical_records : List MedicalRecord
  medications : List Medication
deriving DecidableEq, Repr

/-- A recommendation record ({"type", "content", optional "drugs",
"evidence_level", "source"}); a missing `drugs` key is the empty list
(matching `rec.get("drugs", [])`). -/
structure Recommendation where
  type : Str
  content : Str
  drugs : List Str
  evidence_level : Str
  source : Str
deriving DecidableEq, Repr

/-! ## src/safety_guard.py -/

/-- `WarningSeverity` enum. -/
inductive WarningSeverity where
  | info
  | warning
  | critical
  | emergency
deriving DecidableEq, Repr

/-- The `severity_order` table used as sort key in `SafetyGuard.check`
(`emergency: 0, critical: 1, warning: 2, info: 3`). -/
def severity_order : WarningSeverity → ℕ
  | .emergency => 0
  | .critical => 1
  | .warning => 2
  | .info => 3

/-- `SafetyWarning` dataclass. -/
structure SafetyWarning where
  type : Str
  severity : WarningSeverity
  message : Str
  recommendation : Str
  evidence : Str
  requires_action : Bool
deriving DecidableEq, Repr

namespace SafetyGuard

/-- `self.high_risk_drugs["ACEI"]`. -/
def high_risk_drugs_ACEI : List Str :=
  ["依那普利".data, "贝那普利".data, "雷米普利".data, "培哚普利".data, "卡托普利".data]

/-- `self.high_risk_drugs["ARB"]`. -/
def high_risk_drugs_ARB : List Str :=
  ["缬沙坦".data, "氯沙坦".data, "厄贝沙坦".data, "坎地沙坦".data, "替米沙坦".data]

/-- `self.pregnancy_contraindicated`. -/
def pregnancy_contraindicated : List Str :=
  ["ACEI".data, "ARB".data, "他汀类".data, "华法林".data]

/-- The fixed list of acute symptom keywords in `check_hypertension_emergency`. -/
def emergency_symptoms : List Str :=
  ["头痛".data, "呕吐".data, "视物模糊".data, "胸痛".data, "呼吸困难".data, "意识障碍".data]

/-- `SafetyGuard.check_hypertension_emergency`. -/
def check_hypertension_emergency (profile : Profile) : Option SafetyWarning :=
  match profile.hypertension_assessment with
  | none => none
  | some ha =>
    let sbp : ℚ := ha.sbp.getD 0
    let dbp : ℚ := ha.dbp.getD 0
    if sbp > 180 ∨ dbp > 120 then
      let clinical_conditions : Str := ha.clinical_conditions.getD []
      let symptoms : List Str :=
        emergency_symptoms.filter (fun s => containsStr clinical_conditions s)
      if sbp ≥ 180 ∨ dbp ≥ 120 then
        some
          { type := "高血压急症".data
            severity := if !symptoms.isEmpty then .emergency else .critical
            message :=
              "⚠️ 高血压急症预警：血压 ".data ++ ratStr sbp ++ "/".data ++ ratStr dbp
                ++ " mmHg".data
                ++ (if !symptoms.isEmpty then
                      "，伴有症状：".data ++ List.intercalate (", ".data) symptoms
                    else [])
            recommendation :=
              "紧急处理建议：\n1. 【立即转诊】建议紧急转诊至急诊科\n2. 【静脉降压】启动静脉降压治疗\n3. 【降压目标】1小时内降低不超过25%\n4. 【监测】持续心电监护、血压监测\n5. 【评估】排除继发性高血压、靶器官损害".data
            evidence := "中国高血压防治指南2023 (证据等级ⅠA)".data
            requires_action := true }
      else none
    else none

/-- `SafetyGuard.check_pregnancy_contraindications`. -/
def check_pregnancy_contraindications (profile : Profile)
    (recommendations : Option (List Recommendation)) : List SafetyWarning :=
  let is_pregnant : Bool :=
    (profile.diagnoses.any (fun diag =>
      let diag_name := diag.diagnosis_name.getD []
      containsStr diag_name ("妊娠".data) || containsStr diag_name ("孕".data)))
    || (profile.medical_records.any (fun record =>
      [record.chief_complaint, record.present_illness, record.past_history].any
        (fun field =>
          let content := field.getD []
          containsStr content ("妊娠".data) || containsStr content ("孕妇".data)
            || containsStr content ("怀孕".data))))
  if !is_pregnant then []
  else
    let contraindicated_meds : List (Str × Str) :=
      (profile.medications.map (fun med =>
        let drug_name := med.drug_name.getD []
        let drug_class := med.drug_class.getD []
        (if drug_class = "ACEI".data
            ∨ high_risk_drugs_ACEI.any (fun d => containsStr drug_name d) then
          [(drug_name, "ACEI".data)]
        else []) ++
        (if drug_class = "ARB".data
            ∨ high_risk_drugs_ARB.any (fun d => containsStr drug_name d) then
          [(drug_name, "ARB".data)]
        else []))).flatten
    let med_warnings : List SafetyWarning :=
      if !contraindicated_meds.isEmpty then
        [{ type := "妊娠期用药禁忌".data
           severity := .critical
           message :=
             "⚠️ 严重警告：妊娠期患者正在使用禁忌药物：".data
               ++ List.intercalate (", ".data) (contraindicated_meds.map (·.1))
           recommendation :=
             "紧急处理建议：\n1. 【立即停药】停用 ACEI/ARB 类药物\n2. 【替代方案】推荐使用：\n   - 甲基多巴（首选，证据等级ⅠB）\n   - 拉贝洛尔（证据等级ⅠB）\n   - 硝苯地平缓释片（证据等级ⅠC）\n3. 【会诊】建议产科会诊，评估胎儿状况\n4. 【监测】密切监测血压和胎儿情况".data
           evidence := "中国高血压防治指南2023 - 妊娠期高血压章节 (证据等级ⅠA)".data
           requires_action := true }]
      else []
    let rec_warnings : List SafetyWarning :=
      match recommendations with
      | none => []
      | some recs =>
        (recs.map (fun rec0 =>
          (rec0.drugs.map (fun drug =>
            if ["ACEI".data, "ARB".data, "普利".data, "沙坦".data].any
                (fun d => containsStr drug d) then
              [{ type := "推荐方案禁忌".data
                 severity := WarningSeverity.critical
                 message := "⚠️ 警告：推荐方案中包含妊娠期禁忌药物：".data ++ drug
                 recommendation :=
                   "妊娠期应避免使用 ACEI/ARB 类药物，建议使用甲基多巴或拉贝洛尔".data
                 evidence := "中国高血压防治指南2023".data
                 requires_action := true }]
            else [])).flatten)).flatten
    med_warnings ++ rec_warnings

/-- One row of the fixed interaction table in `check_drug_interactions`. -/
structure Interaction where
  drugs : List Str
  risk : Str
  severity : WarningSeverity
deriving DecidableEq, Repr

/-- The fixed `interactions` table. -/
def interactions : List Interaction :=
  [ { drugs := ["ACEI".data, "ARB".data]
      risk := "双重RAS阻断增加高钾血症和肾功能损害风险".data
      severity := .warning }
  , { drugs := ["ACEI".data, "保钾利尿剂".data]
      risk := "增加高钾血症风险".data
      severity := .warning }
  , { drugs := ["β受体阻滞剂".data, "维拉帕米".data]
      risk := "可能导致严重心动过缓或传导阻滞".data
      severity := .critical }
  , { drugs := ["二甲双胍".data, "造影剂".data]
      risk := "增加乳酸酸中毒风险，造影前后需停药".data
      severity := .warning } ]

/-- `SafetyGuard.check_drug_interactions`. -/
def check_drug_interactions (profile : Profile) : List SafetyWarning :=
  if profile.medications.length < 2 then []
  else
    let drug_names : List Str := profile.medications.map (fun med => med.drug_name.getD [])
    let drug_classes : List Str := profile.medications.map (fun med => med.drug_class.getD [])
    (interactions.map (fun interaction =>
      let drugs_found : List Str := interaction.drugs.filter (fun drug =>
        drug_classes.contains drug || drug_names.any (fun name => containsStr name drug))
      if 2 ≤ drugs_found.length then
        [{ type := "药物相互作用".data
           severity := interaction.severity
           message :=
             "⚠️ 药物相互作用警告：".data
               ++ List.intercalate (" + ".data) drugs_found
           recommendation :=
             "风险说明：".data ++ interaction.risk
               ++ "，建议评估是否需要调整用药方案".data
           evidence := "药物相互作用数据库".data
           requires_action := interaction.severity == WarningSeverity.critical }]
      else [])).flatten

/-- `SafetyGuard.check_extreme_values`. -/
def check_extreme_values (profile : Profile) : List SafetyWarning :=
  match profile.diabetes_assessment with
  | none => []
  | some da =>
    let fg := da.fasting_glucose
    let glucose_warnings : List SafetyWarning :=
      if truthyRat fg ∧ fg.getD 0 < mkRat 39 10 then
        [{ type := "低血糖".data
           severity := .critical
           message := "⚠️ 低血糖警告：空腹血糖 ".data ++ ratStr (fg.getD 0) ++ " mmol/L".data
           recommendation := "立即补充葡萄糖，评估降糖药物剂量是否过量".data
           evidence := "中国2型糖尿病防治指南2020".data
           requires_action := true }]
      else if truthyRat fg ∧ fg.getD 0 > mkRat 167 10 then
        [{ type := "严重高血糖".data
           severity := .critical
           message := "⚠️ 严重高血糖警告：空腹血糖 ".data ++ ratStr (fg.getD 0) ++ " mmol/L".data
           recommendation := "警惕糖尿病酮症酸中毒，建议急诊评估".data
           evidence := "中国2型糖尿病防治指南2020".data
           requires_action := true }]
      else []
    let hba1c := da.hba1c
    let hba1c_warnings : List SafetyWarning :=
      if truthyRat hba1c ∧ hba1c.getD 0 ≥ 10 then
        [{ type := "血糖控制极差".data
           severity := .warning
           message := "⚠️ HbA1c ".data ++ ratStr (hba1c.getD 0) ++ "%，血糖控制极差".data
           recommendation := "需要强化治疗，考虑起始或强化胰岛素治疗".data
           evidence := "中国2型糖尿病防治指南2020".data
           requires_action := true }]
      else []
    glucose_warnings ++ hba1c_warnings

/-- `SafetyGuard.check` — runs the four checks in order and sorts the merged
list by `severity_order` (Python `list.sort` is stable; it is modelled by the
stable `List.insertionSort`). -/
def check (profile : Profile) (recommendations : Option (List Recommendation)) :
    List SafetyWarning :=
  let warnings :=
    (match check_hypertension_emergency profile with
      | some w => [w]
      | none => [])
    ++ check_pregnancy_contraindications profile recommendations
    ++ check_drug_interactions profile
    ++ check_extreme_values profile
  warnings.insertionSort (fun a b => severity_order a.severity ≤ severity_order b.severity)

end SafetyGuard

/-! ## src/risk_engine.py -/

namespace RiskEngine

/-- `RiskEngine._calculate_risk_level` — the hypertension tier decision. -/
def calculate_risk_level (bp_level : ℚ) (rf_count tod_count cc_count : ℕ)
    (has_dm : Bool) : Str :=
  if cc_count > 0 then "很高危".data
  else if tod_count > 0 ∨ has_dm = true then
    (if bp_level ≥ 2 then "很高危".data else "高危".data)
  else if bp_level ≥ 3 then "很高危".data
  else if bp_level = 2 then
    (if rf_count ≥ 3 then "很高危".data
     else if rf_count ≥ 1 then "高危".data
     else "中危".data)
  else if bp_level = 1 then
    (if rf_count ≥ 3 then "高危".data
     else if rf_count ≥ 1 then "中危".data
     else "低危".data)
  else
    (if rf_count ≥ 3 then "中危".data else "低危".data)

/-- A hypertension follow-up plan record. -/
structure FollowUpPlan where
  frequency : Str
  next_visit : Str
  monitoring : List Str
  targets : List Str
deriving DecidableEq, Repr

/-- `RiskEngine._generate_follow_up_plan` (the `bp_level` argument is accepted
and ignored, as in the source); `now_plus d` models
`(datetime.now() + timedelta(days=d)).strftime("%Y-%m-%d")`. -/
def generate_follow_up_plan (now_plus : ℕ → Str) (risk_level : Str)
    (bp_level : ℚ) : FollowUpPlan :=
  if risk_level = "低危".data then
    { frequency := "3个月".data, next_visit := now_plus 90
      monitoring := ["血压监测（每周1-2次）".data, "生活方式评估".data]
      targets := ["血压<140/90 mmHg".data] }
  else if risk_level = "高危".data then
    { frequency := "2周".data, next_visit := now_plus 14
      monitoring := ["血压监测（每日）".data, "心血管风险评估".data, "肾功能检查".data, "心电图".data]
      targets := ["血压<130/80 mmHg".data, "立即开始药物治疗".data] }
  else if risk_level = "很高危".data then
    { frequency := "1周".data, next_visit := now_plus 7
      monitoring := ["血压监测（每日2次）".data, "心血管全面评估".data, "肾功能".data, "眼底检查".data]
      targets := ["尽快将血压控制在安全范围".data, "强化治疗".data, "考虑转诊".data] }
  else
    { frequency := "1个月".data, next_visit := now_plus 30
      monitoring := ["血压监测（每周2-3次）".data, "心血管危险因素评估".data, "靶器官检查".data]
      targets := ["血压<140/90 mmHg".data, "评估是否需要药物治疗".data] }

/-- `RiskEngine._generate_bp_recommendations` (the `bp_level` argument is
accepted and ignored, as in the source). -/
def generate_bp_recommendations (bp_level : ℚ) (risk_level : Str)
    (risk_factors : List Str) : List Recommendation :=
  [ { type := "生活方式干预".data
      content := "限盐（<6g/d）、减重、规律运动、戒烟限酒、DASH饮食".data
      drugs := []
      evidence_level := "ⅠA".data
      source := "中国高血压防治指南2023".data } ]
  ++ (if risk_level = "高危".data ∨ risk_level = "很高危".data then
        [ { type := "药物治疗".data
            content := "立即开始降压药物治疗，推荐起始联合治疗".data
            drugs := ["CCB（如氨氯地平）".data, "ACEI/ARB（如缬沙坦）".data]
            evidence_level := "ⅠA".data
            source := "中国高血压防治指南2023".data } ]
      else if risk_level = "中危".data then
        [ { type := "药物治疗".data
            content := "生活方式干预4周后若血压未达标，开始药物治疗".data
            drugs := ["CCB".data, "ACEI/ARB".data, "利尿剂（任选一种）".data]
            evidence_level := "ⅠA".data
            source := "中国高血压防治指南2023".data } ]
      else
        [ { type := "观察随访".data
            content := "首先强化生活方式干预，密切监测血压".data
            drugs := []
            evidence_level := "ⅠB".data
            source := "中国高血压防治指南2023".data } ])
  ++ (if ("糖尿病".data : Str) ∈ risk_factors then
        [ { type := "合并糖尿病".data
            content := "优先选择ACEI/ARB类药物，有肾脏保护作用".data
            drugs := ["ACEI（如依那普利）".data, "ARB（如缬沙坦）".data]
            evidence_level := "ⅠA".data
            source := "中国高血压防治指南2023".data } ]
      else [])

/-- The result dict of `RiskEngine.assess_hypertension_risk`. -/
structure HypertensionResult where
  risk_level : Str
  risk_factors : List Str
  target_organ_damage : List Str
  clinical_conditions : List Str
  bp_classification : Option BPClassification
  follow_up_plan : Option FollowUpPlan
  recommendations : List Recommendation
  evidence_level : Str
  source : Str
deriving DecidableEq, Repr

/-- `RiskEngine.assess_hypertension_risk`.  Note that in the source,
`result["risk_factors"]` aliases the mutable `risk_factors` list, so the
later `risk_factors.append("糖尿病")` is visible in the result. -/
def assess_hypertension_risk (now_plus : ℕ → Str) (profile : Profile) :
    HypertensionResult :=
  match profile.hypertension_assessment with
  | none =>
    { risk_level := "无法评估（缺少血压数据）".data
      risk_factors := []
      target_organ_damage := []
      clinical_conditions := []
      bp_classification := none
      follow_up_plan := none
      recommendations := []
      evidence_level := "ⅠA".data
      source := "中国高血压防治指南2023".data }
  | some ha =>
    let basic_info := profile.basic_info.getD emptyBasicInfo
    let sbp : ℚ := ha.sbp.getD 0
    let dbp : ℚ := ha.dbp.getD 0
    let bp_class := classify_bp sbp dbp
    let age : ℕ := basic_info.age.getD 0
    let gender : Str := basic_info.gender.getD []
    let age_factors : List Str :=
      if (gender = "男".data ∧ age ≥ 55) ∨ (gender = "女".data ∧ age ≥ 65) then
        ["年龄（男≥55岁/女≥65岁）".data]
      else []
    let bmi_factors : List Str :=
      if truthyRat basic_info.bmi ∧ basic_info.bmi.getD 0 ≥ 28 then
        ["肥胖（BMI ".data ++ ratStr (basic_info.bmi.getD 0) ++ "）".data]
      else if truthyRat basic_info.bmi ∧ basic_info.bmi.getD 0 ≥ 24 then
        ["超重（BMI ".data ++ ratStr (basic_info.bmi.getD 0) ++ "）".data]
      else []
    let record_factors : List Str :=
      if truthyStr ha.risk_factors then
        ((splitOnChar ',' (ha.risk_factors.getD [])).map pyStrip).filter
          (fun f => !f.isEmpty)
      else []
    let target_organ_damage : List Str :=
      if truthyStr ha.target_organs_damage then
        ((splitOnChar ',' (ha.target_organs_damage.getD [])).map pyStrip).filter
          (fun d => !d.isEmpty)
      else []
    let clinical_conditions : List Str :=
      if truthyStr ha.clinical_conditions then
        ((splitOnChar ',' (ha.clinical_conditions.getD [])).map pyStrip).filter
          (fun c => !c.isEmpty)
      else []
    let has_dm : Bool := profile.diabetes_assessment.isSome
    let risk_factors : List Str :=
      age_factors ++ bmi_factors ++ record_factors
        ++ (if has_dm then ["糖尿病".data] else [])
    let risk_level :=
      calculate_risk_level bp_class.level risk_factors.length
        target_organ_damage.length clinical_conditions.length has_dm
    { risk_level := risk_level
      risk_factors := risk_factors
      target_organ_damage := target_organ_damage
      clinical_conditions := clinical_conditions
      bp_classification := some bp_class
      follow_up_plan := some (generate_follow_up_plan now_plus risk_level bp_class.level)
      recommendations := generate_bp_recommendations bp_class.level risk_level risk_factors
      evidence_level := "ⅠA".data
      source := "中国高血压防治指南2023".data }

/-- A diabetes follow-up plan record. -/
structure DMFollowUpPlan where
  frequency : Str
  next_visit : Str
  monitoring : List Str
  annual_check : List Str
deriving DecidableEq, Repr

/-- `RiskEngine._generate_dm_follow_up`. -/
def generate_dm_follow_up (now_plus : ℕ → Str) (control_status : Str) :
    DMFollowUpPlan :=
  if control_status = "良好".data then
    { frequency := "3个月".data, next_visit := now_plus 90
      monitoring := ["HbA1c（每3个月）".data, "空腹血糖".data, "餐后血糖".data]
      annual_check := ["眼底检查".data, "肾功能".data, "足部检查".data] }
  else if control_status = "不佳".data then
    { frequency := "2-4周".data, next_visit := now_plus 14
      monitoring := ["强化血糖监测".data, "HbA1c（每3个月）".data, "并发症筛查".data]
      annual_check := ["眼底检查".data, "肾功能".data, "心血管风险评估".data, "神经病变".data, "足部检查".data] }
  else
    { frequency := "1-2个月".data, next_visit := now_plus 45
      monitoring := ["HbA1c（每3个月）".data, "血糖谱监测".data, "用药依从性评估".data]
      annual_check := ["眼底检查".data, "肾功能".data, "神经病变筛查".data, "足部检查".data] }

/-- `RiskEngine._generate_dm_recommendations` (only `hba1c` is actually used
by the body; the other three parameters are accepted and ignored, as in the
source). -/
def generate_dm_recommendations (hba1c fg pg : Option ℚ)
    (insulin_usage : Option Bool) : List Recommendation :=
  [ { type := "生活方式干预".data
      content := "医学营养治疗、运动疗法、戒烟、糖尿病自我管理教育".data
      drugs := []
      evidence_level := "ⅠA".data
      source := "中国2型糖尿病防治指南2020".data } ]
  ++ (if truthyRat hba1c then
        (if hba1c.getD 0 ≥ 9 then
          [ { type := "强化治疗".data
              content := "HbA1c≥9.0%，建议起始胰岛素治疗或联合治疗".data
              drugs := ["基础胰岛素".data, "二甲双胍联合胰岛素".data]
              evidence_level := "ⅠA".data
              source := "中国2型糖尿病防治指南2020".data } ]
        else if hba1c.getD 0 ≥ mkRat 75 10 then
          [ { type := "联合治疗".data
              content := "HbA1c≥7.5%，建议二甲双胍联合其他降糖药".data
              drugs := ["二甲双胍+DPP-4抑制剂".data, "二甲双胍+SGLT-2抑制剂".data, "二甲双胍+GLP-1受体激动剂".data]
              evidence_level := "ⅠA".data
              source := "中国2型糖尿病防治指南2020".data } ]
        else if hba1c.getD 0 ≥ 7 then
          [ { type := "调整治疗".data
              content := "HbA1c 7.0-7.5%，强化生活方式干预，必要时增加药物".data
              drugs := ["二甲双胍（一线）".data]
              evidence_level := "ⅠA".data
              source := "中国2型糖尿病防治指南2020".data } ]
        else
          [ { type := "维持治疗".data
              content := "HbA1c<7.0%，控制良好，维持当前治疗方案".data
              drugs := []
              evidence_level := "ⅠA".data
              source := "中国2型糖尿病防治指南2020".data } ])
      else [])

/-- The `glucose_values` sub-dict of the diabetes assessment result. -/
structure GlucoseValues where
  fasting : Option ℚ
  postprandial : Option ℚ
deriving DecidableEq, Repr

/-- The result dict of `RiskEngine.assess_diabetes_control`. -/
structure DiabetesResult where
  control_status : Str
  hba1c_classification : Option HbA1cClassification
  glucose_values : Option GlucoseValues
  recommendations : List Recommendation
  follow_up_plan : Option DMFollowUpPlan
  evidence_level : Str
  source : Str
deriving DecidableEq, Repr

/-- `RiskEngine.assess_diabetes_control`. -/
def assess_diabetes_control (now_plus : ℕ → Str) (profile : Profile) :
    DiabetesResult :=
  match profile.diabetes_assessment with
  | none =>
    { control_status := "无法评估（缺少数据）".data
      hba1c_classification := none
      glucose_values := none
      recommendations := []
      follow_up_plan := none
      evidence_level := "ⅠA".data
      source := "中国2型糖尿病防治指南2020".data }
  | some da =>
    let control_status : Str :=
      if truthyRat da.hba1c then
        (if da.hba1c.getD 0 < 7 then "良好".data
         else if da.hba1c.getD 0 < 8 then "一般".data
         else "不佳".data)
      else "未评估".data
    let hba1c_classification : Option HbA1cClassification :=
      if truthyRat da.hba1c then some (classify_hba1c (da.hba1c.getD 0)) else none
    { control_status := control_status
      hba1c_classification := hba1c_classification
      glucose_values :=
        some { fasting := detruthyRat da.fasting_glucose
               postprandial := detruthyRat da.postprandial_glucose }
      recommendations :=
        generate_dm_recommendations da.hba1c da.fasting_glucose
          da.postprandial_glucose da.insulin_usage
      follow_up_plan := some (generate_dm_follow_up now_plus control_status)
      evidence_level := "ⅠA".data
      source := "中国2型糖尿病防治指南2020".data }

/-- `RiskEngine._calculate_overall_risk` (reads `risk_level` of the
hypertension result and `control_status` of the diabetes result). -/
def calculate_overall_risk (hp_assessment : HypertensionResult)
    (dm_assessment : DiabetesResult) : Str :=
  let hp_risk := hp_assessment.risk_level
  let dm_control := dm_assessment.control_status
  if hp_risk = "很高危".data ∨ dm_control = "不佳".data then "很高危".data
  else if hp_risk = "高危".data ∨ dm_control = "一般".data then "高危".data
  else if hp_risk = "中危".data then "中危".data
  else "低危".data

end RiskEngine

/-! ## src/term_mapper.py -/

namespace TermMapper

/-- The module-level `TERM_MAPPINGS` dict (alias → canonical term), in source
insertion order. -/
def TERM_MAPPINGS : List (Str × Str) :=
  [ ("心梗".data, "心肌梗死".data)
  , ("心肌梗塞".data, "心肌梗死".data)
  , ("MI".data, "心肌梗死".data)
  , ("AMI".data, "急性心肌梗死".data)
  , ("冠心病".data, "冠状动脉粥样硬化性心脏病".data)
  , ("冠状动脉硬化".data, "冠状动脉粥样硬化性心脏病".data)
  , ("CHD".data, "冠状动脉粥样硬化性心脏病".data)
  , ("中风".data, "脑卒中".data)
  , ("脑中风".data, "脑卒中".data)
  , ("脑梗".data, "脑梗死".data)
  , ("脑梗塞".data, "脑梗死".data)
  , ("脑溢血".data, "脑出血".data)
  , ("高血压".data, "高血压病".data)
  , ("血压高".data, "高血压病".data)
  , ("HTN".data, "高血压病".data)
  , ("房颤".data, "心房颤动".data)
  , ("心律不齐".data, "心律失常".data)
  , ("糖尿病".data, "糖尿病".data)
  , ("DM".data, "糖尿病".data)
  , ("血糖高".data, "高血糖".data)
  , ("低血糖".data, "低血糖症".data)
  , ("1型糖尿病".data, "1型糖尿病".data)
  , ("T1DM".data, "1型糖尿病".data)
  , ("2型糖尿病".data, "2型糖尿病".data)
  , ("T2DM".data, "2型糖尿病".data)
  , ("糖化血红蛋白".data, "糖化血红蛋白".data)
  , ("HbA1c".data, "糖化血红蛋白".data)
  , ("糖化".data, "糖化血红蛋白".data)
  , ("ACEI".data, "血管紧张素转换酶抑制剂".data)
  , ("普利类".data, "血管紧张素转换酶抑制剂".data)
  , ("ARB".data, "血管紧张素II受体拮抗剂".data)
  , ("沙坦类".data, "血管紧张素II受体拮抗剂".data)
  , ("CCB".data, "钙通道阻滞剂".data)
  , ("地平类".data, "钙通道阻滞剂".data)
  , ("β受体阻滞剂".data, "β受体阻滞剂".data)
  , ("洛尔类".data, "β受体阻滞剂".data)
  , ("利尿剂".data, "利尿剂".data)
  , ("噻嗪类".data, "噻嗪类利尿剂".data)
  , ("氨氯地平".data, "苯磺酸氨氯地平".data)
  , ("络活喜".data, "苯磺酸氨氯地平".data)
  , ("缬沙坦".data, "缬沙坦".data)
  , ("代文".data, "缬沙坦".data)
  , ("氯沙坦".data, "氯沙坦钾".data)
  , ("科素亚".data, "氯沙坦钾".data)
  , ("二甲双胍".data, "盐酸二甲双胍".data)
  , ("格华止".data, "盐酸二甲双胍".data)
  , ("甲基多巴".data, "甲基多巴".data)
  , ("拉贝洛尔".data, "盐酸拉贝洛尔".data)
  , ("血压".data, "血压测量".data)
  , ("BP".data, "血压测量".data)
  , ("收缩压".data, "收缩压".data)
  , ("SBP".data, "收缩压".data)
  , ("舒张压".data, "舒张压".data)
  , ("DBP".data, "舒张压".data)
  , ("空腹血糖".data, "空腹血糖".data)
  , ("FPG".data, "空腹血糖".data)
  , ("FBG".data, "空腹血糖".data)
  , ("餐后血糖".data, "餐后2小时血糖".data)
  , ("餐后2h血糖".data, "餐后2小时血糖".data)
  , ("2hPG".data, "餐后2小时血糖".data)
  , ("头晕".data, "眩晕".data)
  , ("头痛".data, "头痛".data)
  , ("胸闷".data, "胸闷".data)
  , ("胸痛".data, "胸痛".data)
  , ("心慌".data, "心悸".data)
  , ("气短".data, "呼吸困难".data)
  , ("水肿".data, "水肿".data)
  , ("浮肿".data, "水肿".data)
  , ("肾病".data, "肾脏病变".data)
  , ("肾功能不全".data, "慢性肾脏病".data)
  , ("CKD".data, "慢性肾脏病".data)
  , ("视网膜病变".data, "糖尿病视网膜病变".data)
  , ("DR".data, "糖尿病视网膜病变".data)
  , ("神经病变".data, "糖尿病周围神经病变".data)
  , ("DPN".data, "糖尿病周围神经病变".data)
  , ("糖足".data, "糖尿病足".data)
  , ("孕妇".data, "妊娠期".data)
  , ("妊娠".data, "妊娠期".data)
  , ("老年人".data, "老年患者".data)
  , ("老人".data, "老年患者".data) ]

/-- The mutable state of a `TermMapper` instance: the forward dict
`self.mappings` and the reverse dict `self.reverse_mappings`, both in
insertion order. -/
structure State where
  mappings : List (Str × Str)
  reverse_mappings : List (Str × List Str)
deriving DecidableEq, Repr

/-- The reverse-mapping construction loop shared by the module level
`REVERSE_MAPPINGS` and `TermMapper.__init__`. -/
def buildReverse (mappings : List (Str × Str)) : List (Str × List Str) :=
  mappings.foldl
    (fun rev p =>
      let rev1 := if (dictGet rev p.2).isNone then rev ++ [(p.2, [])] else rev
      if p.1 ≠ p.2 then dictSet rev1 p.2 ((dictGet rev1 p.2).getD [] ++ [p.1])
      else rev1)
    []

/-- A `TermMapper()` built with the default (no custom) mappings. -/
def defaultMapper : State :=
  { mappings := TERM_MAPPINGS, reverse_mappings := buildReverse TERM_MAPPINGS }

/-- `TermMapper.normalize` — exact (post-strip) match first, then
case-insensitive scan, else identity with `wasMapped = false`. -/
def normalize (st : State) (term : Str) : Str × Bool :=
  let term := pyStrip term
  match dictGet st.mappings term with
  | some standard => if term ≠ standard then (standard, true) else (term, false)
  | none =>
    let term_lower := pyLower term
    match st.mappings.find? (fun p => pyLower p.1 = term_lower) with
    | some p => (p.2, true)
    | none => (term, false)

/-- `TermMapper.get_aliases`. -/
def get_aliases (st : State) (standard_term : Str) : List Str :=
  (dictGet st.reverse_mappings standard_term).getD []

/-- One value of the dict returned by `get_mapping_table`. -/
structure MappingEntry where
  aliases : List Str
  count : ℕ
deriving DecidableEq, Repr

/-- `TermMapper.get_mapping_table`. -/
def get_mapping_table (st : State) : List (Str × MappingEntry) :=
  st.reverse_mappings.map
    (fun p => (p.1, { aliases := p.2, count := p.2.length }))

/-- `TermMapper.add_mapping` — returns the Python `bool` result together with
the updated state.  (The `try` block performs only dict/list updates that
cannot raise, so the success flag is always `true`.) -/
def add_mapping (st : State) (alias0 standard : Str) : Bool × State :=
  let mappings := dictSet st.mappings alias0 standard
  let rev1 :=
    if (dictGet st.reverse_mappings standard).isNone then
      st.reverse_mappings ++ [(standard, [])]
    else st.reverse_mappings
  let cur := (dictGet rev1 standard).getD []
  let rev2 := if alias0 ∈ cur then rev1 else dictSet rev1 standard (cur ++ [alias0])
  (true, { mappings := mappings, reverse_mappings := rev2 })

/-- One iteration of the `expand_query` loop body: if `term` occurs in the
text and maps to a different canonical form, replace every occurrence. -/
def expandStep (st : State) (expanded term : Str) : Str :=
  if containsStr expanded term then
    let standard := (dictGet st.mappings term).getD term
    if term ≠ standard then pyReplace term standard expanded else expanded
  else expanded

/-- `TermMapper.expand_query` — replaces every mapped alias occurring in the
text by its canonical form, trying aliases longest first (`sorted(...,
key=len, reverse=True)` is a stable descending sort, modelled by the stable
`List.insertionSort` with the `≥`-on-length order). -/
def expand_query (st : State) (query : Str) : Str :=
  let sorted_terms :=
    (st.mappings.map (·.1)).insertionSort (fun a b => b.length ≤ a.length)
  sorted_terms.foldl (expandStep st) query

end TermMapper

/-! ## src/rag_service.py and src/config.py -/

namespace RAGService

/-- `config.RAG_CONFIG` (`similarity_threshold = 0.3`, modelled exactly). -/
structure RagConfig where
  chunk_size : ℕ
  chunk_overlap : ℕ
  top_k : ℕ
  similarity_threshold : ℚ
deriving DecidableEq, Repr

/-- The `RAG_CONFIG` constant from `src/config.py`. -/
def RAG_CONFIG : RagConfig :=
  { chunk_size := 500, chunk_overlap := 50, top_k := 5, similarity_threshold := mkRat 3 10 }

/-- A chat history message (`{"role": .., "content": ..}`). -/
structure ChatMsg where
  role : Str
  content : Str
deriving DecidableEq, Repr

/-- The result dict of `LLMClient.generate`. -/
structure GenResult where
  success : Bool
  content : Str
  error : Str
deriving DecidableEq, Repr

/-- `llm_client.MEDICAL_SYSTEM_PROMPT`. -/
def MEDICAL_SYSTEM_PROMPT : Str :=
  "你是一个专业的医疗知识助手，专注于高血压和糖尿病的诊疗决策支持。\n\n你的职责包括：\n1. 根据患者信息生成患者画像\n2. 进行高血压和糖尿病的风险分层评估\n3. 检测药物冲突和禁忌\n4. 生成个性化的诊疗方案\n5. 进行结构化问诊（SOAP格式）\n\n重要原则：\n- 所有建议必须基于医学指南和证据\n- 标注证据等级（如ⅠA、ⅠB、ⅡA等）\n- 对高风险情况（如孕妇、急症）必须给出预警\n- 如无相关知识，明确说明而非猜测\n\n回复格式要求：\n- 使用结构化格式\n- 标注数据来源（PDF页码、数据库表名等）\n- 对重要信息加粗或突出显示\n".data

/-- The `source` descriptor attached to a retrieval hit. -/
structure SourceDesc where
  type : Option Str
  file : Option Str
  page : Option ℕ
  table : Option Str
deriving DecidableEq, Repr

/-- One retrieval hit as consumed by `rag_answer` (a missing `score` key is
read as 0 via `hit.get("score", 0)`). -/
structure Hit where
  content : Str
  score : Option ℚ
  source : SourceDesc
  retrieval_type : Str
deriving DecidableEq, Repr

/-- The dict returned by `RAGService.search`.  `search` itself only calls the
external vector store and database collaborators, so it enters the model as
an oracle `Str → SearchOutput` parameter of `rag_answer`. -/
structure SearchOutput where
  hits : List Hit
  sources : List Str
  normalized_query : Str
  original_query : Str
  total_hits : ℕ
deriving DecidableEq, Repr

/-- One entry of the `sources` list built by `rag_answer` before delegation. -/
structure AnswerSource where
  type : Option Str
  file : Option Str
  page : Option ℕ
  table : Option Str
  score : ℚ
deriving DecidableEq, Repr

/-- The dict returned by `rag_answer`; keys that are only present on some
return paths are `Option` fields defaulting to `none`. -/
structure RagResult where
  answer : Str
  sources : List AnswerSource
  success : Bool
  has_knowledge : Bool
  is_out_of_scope : Option Bool
  max_score : Option ℚ
  normalized_query : Option Str
deriving DecidableEq, Repr

/-- The `supported_keywords` list in `_is_out_of_scope`. -/
def supported_keywords : List Str :=
  [ "高血压".data, "糖尿病".data, "血压".data, "血糖".data, "HbA1c".data, "糖化血红蛋白".data
  , "降压".data, "降糖".data, "ACEI".data, "ARB".data, "CCB".data, "利尿剂".data
  , "心肌梗死".data, "冠心病".data, "脑卒中".data, "肾病".data, "视网膜病变".data
  , "胰岛素".data, "二甲双胍".data, "氨氯地平".data, "缬沙坦".data ]

/-- The `out_of_scope_keywords` list in `_is_out_of_scope`. -/
def out_of_scope_keywords : List Str :=
  [ "骨折".data, "骨科".data, "眼科".data, "皮肤".data, "癌症".data, "肿瘤".data, "手术".data, "外科".data
  , "妇科".data, "产科".data, "儿科".data, "耳鼻喉".data, "口腔".data, "精神".data, "心理".data, "感冒".data
  , "肝病".data, "肺病".data, "胃病".data, "肠病".data, "甲状腺".data, "风湿".data, "免疫".data, "中医".data ]

/-- The (shorter) keyword list duplicated inside `_get_no_knowledge_response`. -/
def no_knowledge_keywords : List Str :=
  [ "骨折".data, "骨科".data, "眼科".data, "皮肤".data, "癌症".data, "肿瘤".data, "手术".data, "外科".data
  , "妇科".data, "产科".data, "儿科".data, "耳鼻喉".data, "口腔".data, "精神".data, "心理".data ]

/-- `RAGService._is_out_of_scope`. -/
def is_out_of_scope (query : Str) : Bool :=
  let query_lower := pyLower query
  let has_out_of_scope := out_of_scope_keywords.any (fun k => containsStr query_lower k)
  let has_supported := supported_keywords.any (fun k => containsStr query_lower k)
  if has_out_of_scope && !has_supported then true else false

/-- `RAGService._get_no_knowledge_response`. -/
def get_no_knowledge_response (query : Str) : Str :=
  match no_knowledge_keywords.find? (fun k => containsStr query k) with
  | some keyword =>
    "抱歉，本系统是高血压和糖尿病诊疗决策支持助手，暂不支持\"".data ++ keyword ++ "\"相关问题的查询。\n\n本系统支持的功能包括：\n1. 高血压诊疗相关问题\n2. 糖尿病诊疗相关问题  \n3. 患者画像与风险评估\n4. 用药方案与禁忌查询\n5. 指南推荐与循证医学支持\n\n如需其他疾病的诊疗信息，请咨询相关专科医生。".data
  | none =>
    "抱歉，在当前知识库中未找到与\"".data ++ query ++ "\"相关的信息。\n\n可能的原因：\n1. 查询的内容不在本系统覆盖范围内\n2. 请尝试使用更具体或标准的医学术语\n\n本系统主要支持高血压和糖尿病相关的诊疗决策支持。如有其他问题，请咨询专业医生。".data

/-- Display of an optional number via `x.get(key, "")` inside an f-string. -/
def optRatStr : Option ℚ → Str
  | none => []
  | some v => ratStr v

/-- Display of an optional integer via `x.get(key, "")` inside an f-string. -/
def optNatStr : Option ℕ → Str
  | none => []
  | some v => natStr v

/-- `RAGService._format_patient_context`. -/
def format_patient_context (context : Profile) : Str :=
  let parts : List Str :=
    (match context.basic_info with
     | none => []
     | some info =>
       [ "基本信息: ".data ++ info.name.getD ("未知".data) ++ ", ".data
           ++ info.gender.getD [] ++ ", ".data ++ optNatStr info.age ++ "岁".data ]
       ++ (if truthyRat info.bmi then ["BMI: ".data ++ ratStr (info.bmi.getD 0)] else []))
    ++ (match context.hypertension_assessment with
     | none => []
     | some ha =>
       [ "血压: ".data ++ optRatStr ha.sbp ++ "/".data ++ optRatStr ha.dbp ++ " mmHg".data
       , "高血压风险等级: ".data ++ ha.risk_level.getD ("未评估".data) ])
    ++ (match context.diabetes_assessment with
     | none => []
     | some da =>
       (if truthyRat da.hba1c then ["HbA1c: ".data ++ ratStr (da.hba1c.getD 0) ++ "%".data] else [])
       ++ [ "糖尿病控制状态: ".data ++ da.control_status.getD ("未评估".data) ])
    ++ (if !context.medications.isEmpty then
          [ "当前用药: ".data
              ++ List.intercalate (", ".data)
                ((context.medications.take 5).map (fun m => m.drug_name.getD [])) ]
        else [])
  List.intercalate ("\n".data) parts

/-- The maximum of `hit.get("score", 0)` over a non-empty hit list (Python
`max([...])`); 0 for an empty list (on which the source never calls it). -/
def listMaxScore : List Hit → ℚ
  | [] => 0
  | h :: t => t.foldl (fun m x => max m (x.score.getD 0)) (h.score.getD 0)

/-- `RAGService.rag_answer`.  External collaborators enter as oracles:
`searchFn` models `self.search` (which only queries the vector store and the
database) and `gen` models `self.llm_client.generate` applied to (prompt,
history, system_prompt).  The second component of the result records whether
the language-model collaborator was invoked. -/
def rag_answer (searchFn : Str → SearchOutput)
    (gen : Str → Option (List ChatMsg) → Str → GenResult)
    (query : Str) (patient_context : Option Profile)
    (history : Option (List ChatMsg)) : RagResult × Bool :=
  if is_out_of_scope query then
    ({ answer := get_no_knowledge_response query, sources := [], success := true
      , has_knowledge := false, is_out_of_scope := some true
      , max_score := none, normalized_query := none }, false)
  else
    let search_results := searchFn query
    if search_results.hits.isEmpty then
      ({ answer := get_no_knowledge_response query, sources := [], success := true
        , has_knowledge := false, is_out_of_scope := none
        , max_score := none, normalized_query := none }, false)
    else
      let max_score := listMaxScore search_results.hits
      let similarity_threshold := RAG_CONFIG.similarity_threshold
      if max_score < similarity_threshold then
        ({ answer := get_no_knowledge_response query, sources := [], success := true
          , has_knowledge := false, is_out_of_scope := none
          , max_score := some max_score, normalized_query := none }, false)
      else
        let filtered_hits :=
          search_results.hits.filter (fun hit => hit.score.getD 0 ≥ similarity_threshold)
        if filtered_hits.isEmpty then
          ({ answer := get_no_knowledge_response query, sources := [], success := true
            , has_knowledge := false, is_out_of_scope := none
            , max_score := none, normalized_query := none }, false)
        else
          let used := filtered_hits.take 5
          let context_parts : List Str :=
            used.map (fun hit =>
              "【来源: ".data ++ hit.source.type.getD ("unknown".data) ++ "】\n".data
                ++ hit.content)
          let sources : List AnswerSource :=
            used.map (fun hit =>
              { type := hit.source.type, file := hit.source.file
               , page := hit.source.page, table := hit.source.table
               , score := hit.score.getD 0 })
          let context := List.intercalate ("\n\n---\n\n".data) context_parts
          let patient_info : Str :=
            match patient_context with
            | none => []
            | some pc => "\n\n【患者信息】\n".data ++ format_patient_context pc
          let prompt : Str :=
            "基于以下参考资料回答问题。请务必：\n1. 仅基于提供的参考资料回答，不要编造信息\n2. 如果资料不足以完整回答，请说明\n3. 标注证据等级和来源\n4. 对高风险情况给出预警\n\n【参考资料】\n".data ++ context ++ "\n".data ++ patient_info
              ++ "\n\n【问题】\n".data ++ query ++ "\n\n【回答】".data
          let result := gen prompt history MEDICAL_SYSTEM_PROMPT
          if result.success then
            ({ answer := result.content, sources := sources, success := true
              , has_knowledge := true, is_out_of_scope := none, max_score := none
              , normalized_query := some search_results.normalized_query }, true)
          else
            ({ answer := "生成回答时出错: ".data ++ result.error, sources := []
              , success := false, has_knowledge := true, is_out_of_scope := none
              , max_score := none, normalized_query := none }, true)

end RAGService

/-! ## Definitions taken from the specification text (for refinement claims) -/

/-- The five blood-pressure levels produced by `classify_bp`
(`0, 0.5, 1, 2, 3`). -/
def bpLevels : List ℚ := [0, mkRat 1 2, 1, 2, 3]

/-- Ordinal rank of a hypertension tier: 低危 (low) 0 < 中危 (medium) 1 <
高危 (high) 2 < 很高危 (very-high) 3. -/
def tierRank (tier : Str) : ℕ :=
  if tier = "中危".data then 1
  else if tier = "高危".data then 2
  else if tier = "很高危".data then 3
  else 0

/-- The hypertension tier decision table as worded in the specification
("Tier decision, in priority order: any clinical condition present ⇒
very-high; else (organ damage present OR diabetes present) ⇒ very-high if BP
level ≥2, else high; else by BP level and risk-factor count — level 3 ⇒
very-high; level 2 ⇒ very-high if ≥3 factors, high if ≥1, else medium;
level 1 ⇒ high if ≥3 factors, medium if ≥1, else low; level 0/0.5 ⇒ medium
if ≥3 factors else low"), with presence/absence as booleans. -/
def specRiskTier (bp_level : ℚ) (rf_count : ℕ) (tod cc dm : Bool) : Str :=
  if cc then "很高危".data
  else if tod || dm then
    (if bp_level ≥ 2 then "很高危".data else "高危".data)
  else if bp_level = 3 then "很高危".data
  else if bp_level = 2 then
    (if rf_count ≥ 3 then "很高危".data
     else if rf_count ≥ 1 then "高危".data
     else "中危".data)
  else if bp_level = 1 then
    (if rf_count ≥ 3 then "高危".data
     else if rf_count ≥ 1 then "中危".data
     else "低危".data)
  else
    (if rf_count ≥ 3 then "中危".data else "低危".data)

/-- The overall-tier combinator as worded in the specification ("overall tier
= very-high if hypertension tier is very-high OR diabetes control is poor;
else high if hypertension tier is high OR diabetes control is fair; else
medium if hypertension tier is medium; else low"). -/
def specOverallTier (hp_tier dm_control : Str) : Str :=
  if hp_tier = "很高危".data ∨ dm_control = "不佳".data then "很高危".data
  else if hp_tier = "高危".data ∨ dm_control = "一般".data then "高危".data
  else if hp_tier = "中危".data then "中危".data
  else "低危".data

/-! ## Concrete inputs used by witnesses and counterexamples -/

/-- A date oracle for closed evaluations. -/
def nowPlusDummy : ℕ → Str := fun _ => []

/-- A hypertension assessment with `sbp = 180`, `dbp = 100` — exactly on the
boundary the specification claims triggers the emergency check. -/
def boundaryHA : HypertensionAssessment :=
  { sbp := some 180, dbp := some 100, risk_factors := none
    target_organs_damage := none, clinical_conditions := none, risk_level := none }

/-- Patient snapshot holding `boundaryHA` and nothing else. -/
def boundaryProfile : Profile :=
  { basic_info := none, hypertension_assessment := some boundaryHA
    diabetes_assessment := none, diagnoses := [], medical_records := []
    medications := [] }

/-- The specification scenario assessment:
`sbp=185, dbp=125, clinical_conditions="胸痛"`. -/
def scenarioHA : HypertensionAssessment :=
  { sbp := some 185, dbp := some 125, risk_factors := none
    target_organs_damage := none
    clinical_conditions := some ("胸痛".data), risk_level := none }

/-- Patient snapshot holding `scenarioHA` and nothing else. -/
def scenarioProfile : Profile :=
  { basic_info := none
    hypertension_assessment := some scenarioHA
    diabetes_assessment := none, diagnoses := [], medical_records := []
    medications := [] }

/-- A diabetes assessment record that is present (a truthy dict) but carries
no HbA1c value. -/
def noHbA1cProfile : Profile :=
  { basic_info := none, hypertension_assessment := none
    diabetes_assessment := some
      { hba1c := none, fasting_glucose := none, postprandial_glucose := none
        insulin_usage := none, control_status := none }
    diagnoses := [], medical_records := [], medications := [] }

/-- A hypertension assessment record that is present (a truthy dict, it
carries a `risk_factors` key with an empty string) but has no numeric
`sbp`/`dbp` fields. -/
def noBpProfile : Profile :=
  { basic_info := none
    hypertension_assessment := some
      { sbp := none, dbp := none, risk_factors := some []
        target_organs_damage := none, clinical_conditions := none
        risk_level := none }
    diabetes_assessment := none, diagnoses := [], medical_records := []
    medications := [] }

/-- A patient snapshot with no data at all (for the missing-record cases). -/
def emptyProfile : Profile :=
  { basic_info := none, hypertension_assessment := none
    diabetes_assessment := none, diagnoses := [], medical_records := []
    medications := [] }

/-- A retrieval oracle returning one low-scoring hit (score 0.1). -/
def lowScoreSearch : Str → RAGService.SearchOutput := fun q =>
  { hits := [ { content := "血压的一般说明".data, score := some (mkRat 1 10)
              , source := { type := some ("pdf".data), file := none, page := none, table := none }
              , retrieval_type := "vector".data } ]
    sources := ["pdf_excel_index".data]
    normalized_query := q, original_query := q, total_hits := 1 }

/-- A language-model oracle that always succeeds. -/
def dummyGen : Str → Option (List RAGService.ChatMsg) → Str → RAGService.GenResult :=
  fun _ _ _ => { success := true, content := "生成的回答".data, error := [] }

/-- A single-mapping term-mapper state (`心梗 → 心肌梗死` with its reverse
entry), used to exercise `add_mapping` on a state whose forward and reverse
tables agree. -/
def smallMapperState : TermMapper.State :=
  { mappings := [("心梗".data, "心肌梗死".data)]
    reverse_mappings := [("心肌梗死".data, ["心梗".data])] }

/-- The pure BP-level / risk-factor-count part of the tier decision (the
branch of `calculate_risk_level` reached with no clinical condition, no organ
damage and no diabetes). -/
def bpRfTier (bp_level : ℚ) (rf_count : ℕ) : Str :=
  if bp_level ≥ 3 then "很高危".data
  else if bp_level = 2 then
    (if rf_count ≥ 3 then "很高危".data
     else if rf_count ≥ 1 then "高危".data
     else "中危".data)
  else if bp_level = 1 then
    (if rf_count ≥ 3 then "高危".data
     else if rf_count ≥ 1 then "中危".data
     else "低危".data)
  else
    (if rf_count ≥ 3 then "中危".data else "低危".data)

/-! ## Helper lemmas -/

theorem calc_split (bp : ℚ) (rf tod cc : ℕ) (dm : Bool) :
    RiskEngine.calculate_risk_level bp rf tod cc dm =
      if cc > 0 then "很高危".data
      else if tod > 0 ∨ dm = true then
        (if bp ≥ 2 then "很高危".data else "高危".data)
      else bpRfTier bp rf := rfl

theorem rank_bpRfTier_le_three (bp : ℚ) (rf : ℕ) :
    tierRank (bpRfTier bp rf) ≤ 3 := by
  unfold bpRfTier
  split_ifs <;> decide

theorem rank_calc_le_three (bp : ℚ) (rf tod cc : ℕ) (dm : Bool) :
    tierRank (RiskEngine.calculate_risk_level bp rf tod cc dm) ≤ 3 := by
  rw [calc_split]
  split_ifs <;> first | decide | exact rank_bpRfTier_le_three bp rf

theorem rank_bpRfTier_le_two (bp : ℚ) (rf : ℕ) (h : ¬ (2:ℚ) ≤ bp) :
    tierRank (bpRfTier bp rf) ≤ 2 := by
  unfold bpRfTier
  split_ifs with h1 h2 <;> first | decide | linarith [h1] | linarith [h2]

theorem rank_bpRfTier_mono_rf (bp : ℚ) {rf rf' : ℕ} (hrf : rf ≤ rf') :
    tierRank (bpRfTier bp rf) ≤ tierRank (bpRfTier bp rf') := by
  unfold bpRfTier
  split_ifs <;> first | decide | omega

theorem rank_bpRfTier_mono_bp {bp bp' : ℚ} (h1 : bp ∈ bpLevels)
    (h2 : bp' ∈ bpLevels) (hle : bp ≤ bp') (rf : ℕ) :
    tierRank (bpRfTier bp rf) ≤ tierRank (bpRfTier bp' rf) := by
  fin_cases h1 <;> fin_cases h2 <;>
    first
      | (exfalso; revert hle; norm_num; done)
      | (by_cases hr3 : 3 ≤ rf <;> by_cases hr1 : 1 ≤ rf <;>
          first
            | omega
            | (simp only [bpRfTier, tierRank]; norm_num [hr3, hr1]; all_goals decide))

theorem calc_mono {bp bp' : ℚ} {rf rf' tod tod' cc cc' : ℕ} {dm dm' : Bool}
    (hbp : bp = bp' ∨ (bp ∈ bpLevels ∧ bp' ∈ bpLevels ∧ bp ≤ bp'))
    (hrf : rf ≤ rf') (htod : tod ≤ tod') (hcc : cc ≤ cc')
    (hdm : dm = true → dm' = true) :
    tierRank (RiskEngine.calculate_risk_level bp rf tod cc dm) ≤
      tierRank (RiskEngine.calculate_risk_level bp' rf' tod' cc' dm') := by
  have hble : bp ≤ bp' := by
    rcases hbp with rfl | ⟨_, _, h⟩
    · exact le_refl bp
    · exact h
  by_cases hc' : cc' > 0
  · have hR : RiskEngine.calculate_risk_level bp' rf' tod' cc' dm' = "很高危".data := by
      rw [calc_split]; simp [hc']
    rw [hR]
    have h3 := rank_calc_le_three bp rf tod cc dm
    have : tierRank ("很高危".data) = 3 := by decide
    omega
  · have hc : ¬ cc > 0 := fun h => hc' (lt_of_lt_of_le h hcc)
    by_cases ht' : tod' > 0 ∨ dm' = true
    · by_cases hbge : (2:ℚ) ≤ bp'
      · have hR : RiskEngine.calculate_risk_level bp' rf' tod' cc' dm' = "很高危".data := by
          rw [calc_split]; simp [hc', ht', hbge]
        rw [hR]
        have h3 := rank_calc_le_three bp rf tod cc dm
        have : tierRank ("很高危".data) = 3 := by decide
        omega
      · have hR : RiskEngine.calculate_risk_level bp' rf' tod' cc' dm' = "高危".data := by
          rw [calc_split]; simp [hc', ht', hbge]
        have hbge2 : ¬ (2:ℚ) ≤ bp := fun h => hbge (le_trans h hble)
        rw [hR]
        have h2 : tierRank ("高危".data) = 2 := by decide
        by_cases ht : tod > 0 ∨ dm = true
        · have hL : RiskEngine.calculate_risk_level bp rf tod cc dm = "高危".data := by
            rw [calc_split]; simp [hc, ht, hbge2]
          rw [hL]
        · have hL : RiskEngine.calculate_risk_level bp rf tod cc dm = bpRfTier bp rf := by
            rw [calc_split]; simp [hc, ht]
          rw [hL, h2]
          exact rank_bpRfTier_le_two bp rf hbge2
    · have ht : ¬ (tod > 0 ∨ dm = true) := by
        intro h
        apply ht'
        rcases h with h | h
        · exact Or.inl (lt_of_lt_of_le h htod)
        · exact Or.inr (hdm h)
      have hL : RiskEngine.calculate_risk_level bp rf tod cc dm = bpRfTier bp rf := by
        rw [calc_split]; simp [hc, ht]
      have hR : RiskEngine.calculate_risk_level bp' rf' tod' cc' dm' = bpRfTier bp' rf' := by
        rw [calc_split]; simp [hc', ht']
      rw [hL, hR]
      rcases hbp with rfl | ⟨hm1, hm2, _⟩
      · exact rank_bpRfTier_mono_rf bp hrf
      · exact le_trans (rank_bpRfTier_mono_rf bp hrf)
          (rank_bpRfTier_mono_bp hm1 hm2 hble rf')

/-! ## Claim C1 -/

/-- C1: for every blood-pressure level in {0, 0.5, 1, 2, 3}, every
risk-factor count, and every presence/absence of target-organ damage,
clinical conditions and diabetes, the tier computed by
`RiskEngine._calculate_risk_level` equals the specification's
priority-ordered decision table. -/
theorem c1_tier_decision_table (bp_level : ℚ) (hbp : bp_level ∈ bpLevels)
    (rf_count tod_count cc_count : ℕ) (has_dm : Bool) :
    RiskEngine.calculate_risk_level bp_level rf_count tod_count cc_count has_dm =
      specRiskTier bp_level rf_count (decide (tod_count > 0))
        (decide (cc_count > 0)) has_dm := by
  fin_cases hbp <;>
    (by_cases hcc : cc_count > 0 <;> by_cases htod : tod_count > 0 <;>
      cases has_dm <;>
      by_cases h3 : rf_count ≥ 3 <;> by_cases h1 : rf_count ≥ 1 <;>
      first
        | omega
        | (simp [RiskEngine.calculate_risk_level, specRiskTier, hcc, htod, h3, h1];
            try norm_num))

/-- Witness for C1: a concrete instance (level 2, one risk factor, no organ
damage, no clinical condition, no diabetes ⇒ 高危). -/
theorem c1_tier_decision_table_witness :
    RiskEngine.calculate_risk_level 2 1 0 0 false =
      specRiskTier 2 1 (decide ((0:ℕ) > 0)) (decide ((0:ℕ) > 0)) false :=
  c1_tier_decision_table 2 (by decide) 1 0 0 false

/-! ## Claim C5 -/

/-- C5: the hypertension tier function is monotonic non-decreasing in each
input separately (BP level within the five classification levels, risk-factor
count, target-organ-damage count, clinical-condition count, diabetes
presence), in the order 低危 < 中危 < 高危 < 很高危. -/
theorem c5_tier_monotone :
    (∀ bp bp', bp ∈ bpLevels → bp' ∈ bpLevels → bp ≤ bp' →
      ∀ rf tod cc : ℕ, ∀ dm : Bool,
        tierRank (RiskEngine.calculate_risk_level bp rf tod cc dm) ≤
          tierRank (RiskEngine.calculate_risk_level bp' rf tod cc dm))
    ∧ (∀ bp : ℚ, ∀ rf rf' tod cc : ℕ, ∀ dm : Bool, rf ≤ rf' →
        tierRank (RiskEngine.calculate_risk_level bp rf tod cc dm) ≤
          tierRank (RiskEngine.calculate_risk_level bp rf' tod cc dm))
    ∧ (∀ bp : ℚ, ∀ rf tod tod' cc : ℕ, ∀ dm : Bool, tod ≤ tod' →
        tierRank (RiskEngine.calculate_risk_level bp rf tod cc dm) ≤
          tierRank (RiskEngine.calculate_risk_level bp rf tod' cc dm))
    ∧ (∀ bp : ℚ, ∀ rf tod cc cc' : ℕ, ∀ dm : Bool, cc ≤ cc' →
        tierRank (RiskEngine.calculate_risk_level bp rf tod cc dm) ≤
          tierRank (RiskEngine.calculate_risk_level bp rf tod cc' dm))
    ∧ (∀ bp : ℚ, ∀ rf tod cc : ℕ,
        tierRank (RiskEngine.calculate_risk_level bp rf tod cc false) ≤
          tierRank (RiskEngine.calculate_risk_level bp rf tod cc true)) := by
  refine ⟨?_, ?_, ?_, ?_, ?_⟩
  · intro bp bp' h1 h2 hle rf tod cc dm
    exact calc_mono (Or.inr ⟨h1, h2, hle⟩) (le_refl rf) (le_refl tod)
      (le_refl cc) (fun h => h)
  · intro bp rf rf' tod cc dm hle
    exact calc_mono (Or.inl rfl) hle (le_refl tod) (le_refl cc) (fun h => h)
  · intro bp rf tod tod' cc dm hle
    exact calc_mono (Or.inl rfl) (le_refl rf) hle (le_refl cc) (fun h => h)
  · intro bp rf tod cc cc' dm hle
    exact calc_mono (Or.inl rfl) (le_refl rf) (le_refl tod) hle (fun h => h)
  · intro bp rf tod cc
    exact calc_mono (Or.inl rfl) (le_refl rf) (le_refl tod) (le_refl cc)
      (fun _ => rfl)

/-- Witness for C5: concrete instances of all five monotonicity conjuncts. -/
theorem c5_tier_monotone_witness :
    (tierRank (RiskEngine.calculate_risk_level 1 0 0 0 false) ≤
      tierRank (RiskEngine.calculate_risk_level 2 0 0 0 false))
    ∧ (tierRank (RiskEngine.calculate_risk_level 2 0 0 0 false) ≤
        tierRank (RiskEngine.calculate_risk_level 2 3 0 0 false))
    ∧ (tierRank (RiskEngine.calculate_risk_level 1 0 0 0 false) ≤
        tierRank (RiskEngine.calculate_risk_level 1 0 1 0 false))
    ∧ (tierRank (RiskEngine.calculate_risk_level 1 0 0 0 false) ≤
        tierRank (RiskEngine.calculate_risk_level 1 0 0 1 false))
    ∧ (tierRank (RiskEngine.calculate_risk_level 1 0 0 0 false) ≤
        tierRank (RiskEngine.calculate_risk_level 1 0 0 0 true)) :=
  ⟨c5_tier_monotone.1 1 2 (by decide) (by decide) (by decide) 0 0 0 false,
   c5_tier_monotone.2.1 2 0 3 0 0 false (by decide),
   c5_tier_monotone.2.2.1 1 0 0 1 0 false (by decide),
   c5_tier_monotone.2.2.2.1 1 0 0 0 1 false (by decide),
   c5_tier_monotone.2.2.2.2 1 0 0 0⟩

/-! ## Claim C6 -/

/-- C6: for every pair of completed sub-assessments, the combined tier is the
pure function of the hypertension tier and the diabetes control status given
by the specification: very-high if the hypertension tier is very-high or
diabetes control is poor; else high if the hypertension tier is high or
diabetes control is fair; else medium if the hypertension tier is medium;
else low. -/
theorem c6_overall_combinator (hp : RiskEngine.HypertensionResult)
    (dm : RiskEngine.DiabetesResult) :
    RiskEngine.calculate_overall_risk hp dm =
      specOverallTier hp.risk_level dm.control_status := rfl

theorem filter_isEmpty_eq_not_any {α : Type} (p : α → Bool) (l : List α) :
    (l.filter p).isEmpty = !(l.any p) := by
  induction l with
  | nil => rfl
  | cons a t ih =>
    cases hpa : p a <;> simp [List.filter_cons, List.any_cons, hpa, ih]

/-! ## Claim C3 -/

/-- C3 counterexample: the claim says the hypertensive-emergency check
produces a warning exactly when `sbp ≥ 180` or `dbp ≥ 120`, but for the
recorded blood pressure 180/100 (where `sbp ≥ 180` holds) the source's outer
strict test `sbp > 180 or dbp > 120` fails and no warning is produced. -/
theorem c3_emergency_boundary_counterexample :
    ((180:ℚ) ≥ 180 ∨ (100:ℚ) ≥ 120)
    ∧ SafetyGuard.check_hypertension_emergency boundaryProfile = none := by
  constructor
  · left; decide
  · decide

/-- C3 (amended): for every patient snapshot with a hypertension-assessment
record, the hypertensive-emergency check produces a warning exactly when the
recorded systolic is strictly greater than 180 or the diastolic strictly
greater than 120; when it triggers, the warning has `requires_action = true`
and its severity is emergency if any of the fixed symptom keywords occurs in
the recorded clinical-condition text, otherwise critical. -/
theorem c3_emergency_check (p : Profile) (ha : HypertensionAssessment)
    (hp : p.hypertension_assessment = some ha) :
    ((SafetyGuard.check_hypertension_emergency p).isSome ↔
      (ha.sbp.getD 0 > 180 ∨ ha.dbp.getD 0 > 120))
    ∧ ∀ w, SafetyGuard.check_hypertension_emergency p = some w →
        w.requires_action = true
        ∧ w.severity =
            (if SafetyGuard.emergency_symptoms.any
                (fun s => containsStr (ha.clinical_conditions.getD []) s) then
              WarningSeverity.emergency
            else WarningSeverity.critical) := by
  simp only [SafetyGuard.check_hypertension_emergency, hp]
  by_cases h1 : ha.sbp.getD 0 > 180 ∨ ha.dbp.getD 0 > 120
  · have h2 : ha.sbp.getD 0 ≥ 180 ∨ ha.dbp.getD 0 ≥ 120 := by
      rcases h1 with h | h
      · exact Or.inl (le_of_lt h)
      · exact Or.inr (le_of_lt h)
    simp only [h1, if_true, h2]
    constructor
    · simp [h1]
    · intro w hw
      simp only [Option.some.injEq] at hw
      subst hw
      refine ⟨rfl, ?_⟩
      simp only
      rw [show (!(SafetyGuard.emergency_symptoms.filter
            (fun s => containsStr (ha.clinical_conditions.getD []) s)).isEmpty) =
          (SafetyGuard.emergency_symptoms.any
            (fun s => containsStr (ha.clinical_conditions.getD []) s)) from by
        rw [filter_isEmpty_eq_not_any, Bool.not_not]]
  · simp [h1]

/-- Witness for C3 (amended): the specification scenario 185/125 with
clinical condition "胸痛". -/
theorem c3_emergency_check_witness :
    ((SafetyGuard.check_hypertension_emergency scenarioProfile).isSome ↔
      (scenarioHA.sbp.getD 0 > 180 ∨ scenarioHA.dbp.getD 0 > 120))
    ∧ ∀ w, SafetyGuard.check_hypertension_emergency scenarioProfile = some w →
        w.requires_action = true
        ∧ w.severity =
            (if SafetyGuard.emergency_symptoms.any
                (fun s => containsStr (scenarioHA.clinical_conditions.getD []) s) then
              WarningSeverity.emergency
            else WarningSeverity.critical) :=
  c3_emergency_check scenarioProfile scenarioHA rfl

/-! ## Claim C7 -/

/-- C7 counterexample: for a present diabetes-assessment record with no
HbA1c value, the control status is left at the initial "未评估" (which is not
the "无法评估" cannot-assess marker the code uses for missing data), and the
recommendations list is not empty: the unconditional lifestyle-intervention
item is always emitted. -/
theorem c7_missing_hba1c_counterexample :
    (RiskEngine.assess_diabetes_control nowPlusDummy noHbA1cProfile).control_status
      = "未评估".data
    ∧ (RiskEngine.assess_diabetes_control nowPlusDummy noHbA1cProfile).control_status
      ≠ "无法评估（缺少数据）".data
    ∧ (RiskEngine.assess_diabetes_control nowPlusDummy noHbA1cProfile).recommendations
      ≠ [] := by
  refine ⟨by decide, by decide, by decide⟩

/-- C7 (amended): for every patient snapshot whose diabetes-assessment record
exists but carries no (truthy) HbA1c value, the diabetes assessment leaves the
control status at "未评估" (not assessed) and returns a recommendations list
holding exactly the one unconditional lifestyle-intervention item — no
HbA1c-graded treatment recommendation. -/
theorem c7_missing_hba1c (now_plus : ℕ → Str) (p : Profile)
    (da : DiabetesAssessment) (hp : p.diabetes_assessment = some da)
    (hhb : truthyRat da.hba1c = false) :
    (RiskEngine.assess_diabetes_control now_plus p).control_status = "未评估".data
    ∧ (RiskEngine.assess_diabetes_control now_plus p).recommendations =
        [ { type := "生活方式干预".data
            content := "医学营养治疗、运动疗法、戒烟、糖尿病自我管理教育".data
            drugs := []
            evidence_level := "ⅠA".data
            source := "中国2型糖尿病防治指南2020".data } ] := by
  simp [RiskEngine.assess_diabetes_control, hp,
    RiskEngine.generate_dm_recommendations, hhb]

/-- Witness for C7 (amended): the concrete record with `hba1c` absent. -/
theorem c7_missing_hba1c_witness :
    (RiskEngine.assess_diabetes_control nowPlusDummy noHbA1cProfile).control_status
      = "未评估".data
    ∧ (RiskEngine.assess_diabetes_control nowPlusDummy noHbA1cProfile).recommendations =
        [ { type := "生活方式干预".data
            content := "医学营养治疗、运动疗法、戒烟、糖尿病自我管理教育".data
            drugs := []
            evidence_level := "ⅠA".data
            source := "中国2型糖尿病防治指南2020".data } ] :=
  c7_missing_hba1c nowPlusDummy noHbA1cProfile
    { hba1c := none, fasting_glucose := none, postprandial_glucose := none
      insulin_usage := none, control_status := none } rfl rfl

/-! ## Claim C8 -/

/-- C8 counterexample: a hypertension-assessment record that is present (a
truthy dict: it carries a `risk_factors` key) but has no numeric `sbp`/`dbp`
fields does NOT yield a "cannot assess" tier — the pressures default to 0,
`classify_bp(0, 0)` grades as normal (level 0), and a normal low-risk
stratification with a non-empty recommendation list is produced. -/
theorem c8_missing_bp_fields_counterexample :
    (RiskEngine.assess_hypertension_risk nowPlusDummy noBpProfile).risk_level
      = "低危".data
    ∧ (RiskEngine.assess_hypertension_risk nowPlusDummy noBpProfile).risk_level
      ≠ "无法评估（缺少血压数据）".data
    ∧ (RiskEngine.assess_hypertension_risk nowPlusDummy noBpProfile).recommendations
      ≠ [] := by
  refine ⟨by decide, by decide, by decide⟩

/-- C8 (amended): only when the hypertension-assessment record itself is
absent (or falsy) does the hypertension assessment return the explicit
"无法评估（缺少血压数据）" cannot-assess tier with an empty recommendation
list; a present record that merely lacks the numeric sbp/dbp fields instead
defaults both pressures to 0 and produces a normal stratification. -/
theorem c8_missing_bp_record (now_plus : ℕ → Str) (p : Profile)
    (hp : p.hypertension_assessment = none) :
    (RiskEngine.assess_hypertension_risk now_plus p).risk_level
      = "无法评估（缺少血压数据）".data
    ∧ (RiskEngine.assess_hypertension_risk now_plus p).recommendations = [] := by
  simp [RiskEngine.assess_hypertension_risk, hp]

/-- Witness for C8 (amended): the empty patient snapshot. -/
theorem c8_missing_bp_record_witness :
    (RiskEngine.assess_hypertension_risk nowPlusDummy emptyProfile).risk_level
      = "无法评估（缺少血压数据）".data
    ∧ (RiskEngine.assess_hypertension_risk nowPlusDummy emptyProfile).recommendations = [] :=
  c8_missing_bp_record nowPlusDummy emptyProfile rfl

/-! ## Claim C2 -/

/-- C2: for every query whose retrieval produces a non-empty hit list, if the
maximum hit score is strictly below the configured similarity threshold
(`RAG_CONFIG["similarity_threshold"] = 0.3`), then `rag_answer` returns the
structured "no knowledge" response with `has_knowledge = false` and never
invokes the language-model generator (the second component of the model's
result records whether `llm_client.generate` was called). -/
theorem c2_low_score_gating (searchFn : Str → RAGService.SearchOutput)
    (gen : Str → Option (List RAGService.ChatMsg) → Str → RAGService.GenResult)
    (query : Str) (pc : Option Profile) (history : Option (List RAGService.ChatMsg))
    (hne : (searchFn query).hits ≠ [])
    (hlow : RAGService.listMaxScore (searchFn query).hits <
      RAGService.RAG_CONFIG.similarity_threshold) :
    (RAGService.rag_answer searchFn gen query pc history).1.has_knowledge = false
    ∧ (RAGService.rag_answer searchFn gen query pc history).1.answer =
        RAGService.get_no_knowledge_response query
    ∧ (RAGService.rag_answer searchFn gen query pc history).2 = false := by
  by_cases hoos : RAGService.is_out_of_scope query = true
  · simp [RAGService.rag_answer, hoos]
  · have hoos' : RAGService.is_out_of_scope query = false :=
      Bool.eq_false_iff.mpr (fun h => hoos h)
    have hne' : (searchFn query).hits.isEmpty = false := by
      cases h : (searchFn query).hits with
      | nil => exact absurd h hne
      | cons a t => rfl
    simp [RAGService.rag_answer, hoos', hne', hlow]

/-- Witness for C2: a one-hit retrieval with score 0.1 < 0.3. -/
theorem c2_low_score_gating_witness :
    (RAGService.rag_answer lowScoreSearch dummyGen ("高血压的治疗".data) none none).1.has_knowledge = false
    ∧ (RAGService.rag_answer lowScoreSearch dummyGen ("高血压的治疗".data) none none).1.answer =
        RAGService.get_no_knowledge_response ("高血压的治疗".data)
    ∧ (RAGService.rag_answer lowScoreSearch dummyGen ("高血压的治疗".data) none none).2 = false :=
  c2_low_score_gating lowScoreSearch dummyGen ("高血压的治疗".data) none none
    (by decide) (by decide)

/-! ## Claim C4 -/

set_option maxRecDepth 100000 in
/-- C4 counterexample: `expand_query` is not idempotent.  On the default
mapping table, "低血糖" expands to its canonical form "低血糖症", but a second
run finds the alias "低血糖" inside "低血糖症" again and produces
"低血糖症症". -/
theorem c4_expand_query_counterexample :
    TermMapper.expand_query TermMapper.defaultMapper ("低血糖".data)
      = "低血糖症".data
    ∧ TermMapper.expand_query TermMapper.defaultMapper
        (TermMapper.expand_query TermMapper.defaultMapper ("低血糖".data))
      = "低血糖症症".data
    ∧ TermMapper.expand_query TermMapper.defaultMapper
        (TermMapper.expand_query TermMapper.defaultMapper ("低血糖".data))
      ≠ TermMapper.expand_query TermMapper.defaultMapper ("低血糖".data) := by
  refine ⟨by decide, by decide, by decide⟩

theorem expandStep_fixed (st : TermMapper.State) (y k : Str)
    (h : containsStr y k = false ∨ (dictGet st.mappings k).getD k = k) :
    TermMapper.expandStep st y k = y := by
  unfold TermMapper.expandStep
  rcases h with h | h
  · simp [h]
  · simp [h]

theorem foldl_expandStep_fixed (st : TermMapper.State) (y : Str)
    (terms : List Str)
    (h : ∀ k ∈ terms,
      containsStr y k = false ∨ (dictGet st.mappings k).getD k = k) :
    terms.foldl (TermMapper.expandStep st) y = y := by
  induction terms with
  | nil => rfl
  | cons k ks ih =>
    rw [List.foldl_cons, expandStep_fixed st y k (h k (List.mem_cons_self k ks))]
    exact ih (fun a ha => h a (List.mem_cons_of_mem k ha))

theorem expand_query_fixpoint (st : TermMapper.State) (y : Str)
    (h : ∀ k ∈ st.mappings.map Prod.fst,
      containsStr y k = false ∨ (dictGet st.mappings k).getD k = k) :
    TermMapper.expand_query st y = y := by
  unfold TermMapper.expand_query
  apply foldl_expandStep_fixed
  intro k hk
  exact h k ((List.perm_insertionSort _ _).mem_iff.mp hk)

/-- C4 (amended): `expand_query` is not idempotent in general (see the
counterexample: 低血糖 ↦ 低血糖症 ↦ 低血糖症症).  Re-running it is a no-op on
every input whose expanded text contains no alias that maps to a different
canonical form: if every mapped alias occurring in `expand_query st x` is its
own canonical form, then `expand_query st (expand_query st x) =
expand_query st x`. -/
theorem c4_expand_query_conditional_idempotent (st : TermMapper.State)
    (x y : Str) (hy : TermMapper.expand_query st x = y)
    (h : ∀ k ∈ st.mappings.map Prod.fst,
      containsStr y k = false ∨ (dictGet st.mappings k).getD k = k) :
    TermMapper.expand_query st (TermMapper.expand_query st x) =
      TermMapper.expand_query st x := by
  rw [hy]
  exact expand_query_fixpoint st y h

set_option maxRecDepth 100000 in
/-- Witness for C4 (amended): the input "hello" contains no alias at all, so
expansion is a no-op and re-expansion is idempotent. -/
theorem c4_expand_query_conditional_idempotent_witness :
    TermMapper.expand_query TermMapper.defaultMapper
        (TermMapper.expand_query TermMapper.defaultMapper ("hello".data)) =
      TermMapper.expand_query TermMapper.defaultMapper ("hello".data) :=
  c4_expand_query_conditional_idempotent TermMapper.defaultMapper
    ("hello".data) ("hello".data) (by decide) (by decide)

/-! ## Claim C9 -/

theorem orderedInsert_all_le {α : Type} (r : α → α → Prop) [DecidableRel r]
    (a : α) (l : List α) (h : ∀ b ∈ l, r a b) :
    l.orderedInsert r a = a :: l := by
  cases l with
  | nil => rfl
  | cons b t => exact List.orderedInsert_of_le r t (h b (List.mem_cons_self b t))

theorem orderedInsert_skip_all {α : Type} (r : α → α → Prop) [DecidableRel r]
    (a : α) (A l : List α) (h : ∀ b ∈ A, ¬ r a b) :
    (A ++ l).orderedInsert r a = A ++ l.orderedInsert r a := by
  induction A with
  | nil => rfl
  | cons b t ih =>
    have hb : ¬ r a b := h b (List.mem_cons_self b t)
    rw [List.cons_append, List.orderedInsert, if_neg hb, List.cons_append,
      ih (fun x hx => h x (List.mem_cons_of_mem b hx))]

theorem severity_order_of_mem_filter {w : SafetyWarning} {l : List SafetyWarning}
    (sev : WarningSeverity) (h : w ∈ l.filter (fun x => x.severity == sev)) :
    w.severity = sev := by
  have := (List.mem_filter.mp h).2
  simpa using this

/-- Stable insertion sort by the four-valued severity key is exactly the
concatenation of the four severity buckets in key order. -/
theorem insertionSort_severity_buckets (l : List SafetyWarning) :
    l.insertionSort
        (fun a b => severity_order a.severity ≤ severity_order b.severity) =
      l.filter (fun w => w.severity == WarningSeverity.emergency)
      ++ l.filter (fun w => w.severity == WarningSeverity.critical)
      ++ l.filter (fun w => w.severity == WarningSeverity.warning)
      ++ l.filter (fun w => w.severity == WarningSeverity.info) := by
  induction l with
  | nil => rfl
  | cons w t ih =>
    rw [List.insertionSort, ih]
    cases hw : w.severity with
    | emergency =>
      rw [orderedInsert_all_le _ w _ ?_]
      · simp [List.filter_cons, hw]
      · intro b _
        simp only [hw, severity_order]
        exact Nat.zero_le _
    | critical =>
      rw [List.append_assoc, List.append_assoc,
        orderedInsert_skip_all _ w _ _ ?_, orderedInsert_all_le _ w _ ?_]
      · simp [List.filter_cons, hw]
      · intro b hb
        rcases List.mem_append.mp hb with hb | hb
        · have := severity_order_of_mem_filter WarningSeverity.critical hb
          simp [hw, severity_order, this]
        · rcases List.mem_append.mp hb with hb | hb
          · have := severity_order_of_mem_filter WarningSeverity.warning hb
            simp [hw, severity_order, this]
          · have := severity_order_of_mem_filter WarningSeverity.info hb
            simp [hw, severity_order, this]
      · intro b hb
        have := severity_order_of_mem_filter WarningSeverity.emergency hb
        simp [hw, severity_order, this]
    | warning =>
      rw [List.append_assoc, List.append_assoc, ← List.append_assoc,
        orderedInsert_skip_all _ w _ _ ?_, orderedInsert_all_le _ w _ ?_]
      · simp [List.filter_cons, hw, List.append_assoc]
      · intro b hb
        rcases List.mem_append.mp hb with hb | hb
        · have := severity_order_of_mem_filter WarningSeverity.warning hb
          simp [hw, severity_order, this]
        · have := severity_order_of_mem_filter WarningSeverity.info hb
          simp [hw, severity_order, this]
      · intro b hb
        rcases List.mem_append.mp hb with hb | hb
        · have := severity_order_of_mem_filter WarningSeverity.emergency hb
          simp [hw, severity_order, this]
        · have := severity_order_of_mem_filter WarningSeverity.critical hb
          simp [hw, severity_order, this]
    | info =>
      rw [show t.filter (fun x => x.severity == WarningSeverity.emergency)
            ++ t.filter (fun x => x.severity == WarningSeverity.critical)
            ++ t.filter (fun x => x.severity == WarningSeverity.warning)
            ++ t.filter (fun x => x.severity == WarningSeverity.info)
          = (t.filter (fun x => x.severity == WarningSeverity.emergency)
            ++ t.filter (fun x => x.severity == WarningSeverity.critical)
            ++ t.filter (fun x => x.severity == WarningSeverity.warning))
            ++ t.filter (fun x => x.severity == WarningSeverity.info) from by
          simp [List.append_assoc]]
      rw [orderedInsert_skip_all _ w _ _ ?_, orderedInsert_all_le _ w _ ?_]
      · simp [List.filter_cons, hw, List.append_assoc]
      · intro b hb
        have := severity_order_of_mem_filter WarningSeverity.info hb
        simp [hw, severity_order, this]
      · intro b hb
        rcases List.mem_append.mp hb with hb | hb
        · rcases List.mem_append.mp hb with hb | hb
          · have := severity_order_of_mem_filter WarningSeverity.emergency hb
            simp [hw, severity_order, this]
          · have := severity_order_of_mem_filter WarningSeverity.critical hb
            simp [hw, severity_order, this]
        · have := severity_order_of_mem_filter WarningSeverity.warning hb
          simp [hw, severity_order, this]

/-- C9: for every patient snapshot and optional recommendation list, the
merged warning list returned by `SafetyGuard.check` is sorted by severity
(emergency before critical before warning before info), and warnings of equal
severity keep the insertion order of the four checks (hypertensive emergency,
pregnancy contraindication, drug interaction, extreme value): the result is
exactly the concatenation of the four severity buckets of the check outputs
in insertion order. -/
theorem c9_check_severity_sorted (p : Profile)
    (recs : Option (List Recommendation)) :
    (SafetyGuard.check p recs).Pairwise
      (fun a b => severity_order a.severity ≤ severity_order b.severity)
    ∧ SafetyGuard.check p recs =
        (let all :=
          (match SafetyGuard.check_hypertension_emergency p with
            | some w => [w]
            | none => [])
          ++ SafetyGuard.check_pregnancy_contraindications p recs
          ++ SafetyGuard.check_drug_interactions p
          ++ SafetyGuard.check_extreme_values p
        all.filter (fun w => w.severity == WarningSeverity.emergency)
          ++ all.filter (fun w => w.severity == WarningSeverity.critical)
          ++ all.filter (fun w => w.severity == WarningSeverity.warning)
          ++ all.filter (fun w => w.severity == WarningSeverity.info)) := by
  haveI : IsTotal SafetyWarning
      (fun a b => severity_order a.severity ≤ severity_order b.severity) :=
    ⟨fun a b => Nat.le_total _ _⟩
  haveI : IsTrans SafetyWarning
      (fun a b => severity_order a.severity ≤ severity_order b.severity) :=
    ⟨fun _ _ _ h1 h2 => le_trans h1 h2⟩
  constructor
  · exact List.sorted_insertionSort _ _
  · exact insertionSort_severity_buckets _

/-! ## Claim C10 -/

theorem dictGet_dictSet_self {β : Type} (d : List (Str × β)) (k : Str) (v : β) :
    dictGet (dictSet d k v) k = some v := by
  induction d with
  | nil => simp [dictSet, dictGet]
  | cons p t ih =>
    obtain ⟨k0, v0⟩ := p
    by_cases h : k0 = k
    · simp [dictSet, dictGet, h]
    · simp [dictSet, dictGet, h, ih]

theorem dictGet_dictSet_ne {β : Type} (d : List (Str × β)) (k k' : Str) (v : β)
    (h : k' ≠ k) : dictGet (dictSet d k v) k' = dictGet d k' := by
  induction d with
  | nil => simp [dictSet, dictGet, Ne.symm h]
  | cons p t ih =>
    obtain ⟨k0, v0⟩ := p
    by_cases hp : k0 = k
    · subst hp
      simp [dictSet, dictGet, Ne.symm h]
    · simp [dictSet, dictGet, hp, ih]

theorem dictGet_append {β : Type} (d e : List (Str × β)) (k : Str) :
    dictGet (d ++ e) k =
      match dictGet d k with
      | some v => some v
      | none => dictGet e k := by
  induction d with
  | nil => simp [dictGet]
  | cons p t ih =>
    obtain ⟨k0, v0⟩ := p
    by_cases hp : k0 = k
    · simp [dictGet, hp]
    · simp [dictGet, hp, ih]

theorem dictGet_mapping_table (st : TermMapper.State) (k : Str) :
    dictGet (TermMapper.get_mapping_table st) k =
      (dictGet st.reverse_mappings k).map
        (fun al => { aliases := al, count := al.length : TermMapper.MappingEntry }) := by
  unfold TermMapper.get_mapping_table
  induction st.reverse_mappings with
  | nil => rfl
  | cons p t ih =>
    obtain ⟨k0, v0⟩ := p
    by_cases hp : k0 = k
    · simp [dictGet, hp]
    · simp [dictGet, hp, ih]

set_option maxRecDepth 100000 in
/-- C10 counterexample: the claim says `add_mapping(alias, standard)` makes
`normalize(alias)` return `(standard, true)` whenever `alias ≠ standard`;
but `normalize` strips the looked-up term first, so for the alias " 心梗"
(leading space) remapped to "X", `normalize(" 心梗")` strips to "心梗", hits
the pre-existing default mapping and returns ("心肌梗死", true) instead of
("X", true). -/
theorem c10_add_mapping_counterexample :
    (TermMapper.add_mapping TermMapper.defaultMapper (" 心梗".data) ("X".data)).1 = true
    ∧ (" 心梗".data : Str) ≠ "X".data
    ∧ TermMapper.normalize
        (TermMapper.add_mapping TermMapper.defaultMapper (" 心梗".data) ("X".data)).2
        (" 心梗".data)
      = ("心肌梗死".data, true)
    ∧ TermMapper.normalize
        (TermMapper.add_mapping TermMapper.defaultMapper (" 心梗".data) ("X".data)).2
        (" 心梗".data)
      ≠ ("X".data, true) := by
  refine ⟨rfl, by decide, by decide, by decide⟩

/-- C10 (amended): for a strip-invariant alias, `add_mapping(alias, new)`
always returns true and makes `normalize(alias)` return `(new, true)` when
they differ; it never removes the alias from the alias list of the canonical
term it previously mapped to, so after reassigning an existing alias both
`get_aliases` and `get_mapping_table` list the alias under the old and the
new canonical term, diverging from the forward mapping used by `normalize`. -/
theorem c10_add_mapping_stale_reverse (st : TermMapper.State)
    (alias0 new old : Str)
    (hstrip : pyStrip alias0 = alias0)
    (hne : alias0 ≠ new)
    (hold : dictGet st.mappings alias0 = some old)
    (holdne : old ≠ new)
    (hmem : alias0 ∈ (dictGet st.reverse_mappings old).getD []) :
    (TermMapper.add_mapping st alias0 new).1 = true
    ∧ TermMapper.normalize (TermMapper.add_mapping st alias0 new).2 alias0
        = (new, true)
    ∧ alias0 ∈ TermMapper.get_aliases (TermMapper.add_mapping st alias0 new).2 old
    ∧ alias0 ∈ TermMapper.get_aliases (TermMapper.add_mapping st alias0 new).2 new
    ∧ (∃ e, dictGet (TermMapper.get_mapping_table (TermMapper.add_mapping st alias0 new).2) old
          = some e ∧ alias0 ∈ e.aliases)
    ∧ (∃ e, dictGet (TermMapper.get_mapping_table (TermMapper.add_mapping st alias0 new).2) new
          = some e ∧ alias0 ∈ e.aliases) := by
  obtain ⟨oldAliases, holdsome, hmem'⟩ :
      ∃ l, dictGet st.reverse_mappings old = some l ∧ alias0 ∈ l := by
    cases h : dictGet st.reverse_mappings old with
    | none => rw [h] at hmem; simp at hmem
    | some l => rw [h] at hmem; exact ⟨l, rfl, hmem⟩
  have hmap : (TermMapper.add_mapping st alias0 new).2.mappings
      = dictSet st.mappings alias0 new := rfl
  have hrev1_old :
      dictGet (if (dictGet st.reverse_mappings new).isNone then
          st.reverse_mappings ++ [(new, [])]
        else st.reverse_mappings) old = some oldAliases := by
    split
    · rw [dictGet_append, holdsome]
    · exact holdsome
  have hrevdef : (TermMapper.add_mapping st alias0 new).2.reverse_mappings
      = (let rev1 := if (dictGet st.reverse_mappings new).isNone then
            st.reverse_mappings ++ [(new, [])]
          else st.reverse_mappings
         let cur := (dictGet rev1 new).getD []
         if alias0 ∈ cur then rev1 else dictSet rev1 new (cur ++ [alias0])) := rfl
  have hrev2_old :
      dictGet (TermMapper.add_mapping st alias0 new).2.reverse_mappings old
        = some oldAliases := by
    rw [hrevdef]
    simp only
    generalize hg : (if (dictGet st.reverse_mappings new).isNone then
        st.reverse_mappings ++ [(new, [])]
      else st.reverse_mappings) = rev1x
    rw [hg] at hrev1_old
    split
    · exact hrev1_old
    · rw [dictGet_dictSet_ne _ _ _ _ holdne]
      exact hrev1_old
  have hrev2_new :
      alias0 ∈ (dictGet (TermMapper.add_mapping st alias0 new).2.reverse_mappings new).getD [] := by
    rw [hrevdef]
    simp only
    generalize hg : (if (dictGet st.reverse_mappings new).isNone then
        st.reverse_mappings ++ [(new, [])]
      else st.reverse_mappings) = rev1x
    split
    · next hin => exact hin
    · rw [dictGet_dictSet_self]
      simp
  refine ⟨rfl, ?_, ?_, ?_, ?_, ?_⟩
  · unfold TermMapper.normalize
    simp only [hstrip, hmap, dictGet_dictSet_self]
    simp [hne]
  · unfold TermMapper.get_aliases
    rw [hrev2_old]
    exact hmem'
  · exact hrev2_new
  · refine ⟨{ aliases := oldAliases, count := oldAliases.length }, ?_, hmem'⟩
    rw [dictGet_mapping_table, hrev2_old]
    rfl
  · obtain ⟨l, hl, hml⟩ :
        ∃ l, dictGet (TermMapper.add_mapping st alias0 new).2.reverse_mappings new
          = some l ∧ alias0 ∈ l := by
      cases h : dictGet (TermMapper.add_mapping st alias0 new).2.reverse_mappings new with
      | none => rw [h] at hrev2_new; simp at hrev2_new
      | some l => rw [h] at hrev2_new; exact ⟨l, rfl, hrev2_new⟩
    refine ⟨{ aliases := l, count := l.length }, ?_, hml⟩
    rw [dictGet_mapping_table, hl]
    rfl

/-- Witness for C10 (amended): reassigning the alias "心梗" (previously
mapped to "心肌梗死") to "冠心病" on a single-entry mapper state. -/
theorem c10_add_mapping_stale_reverse_witness :
    (TermMapper.add_mapping smallMapperState ("心梗".data) ("冠心病".data)).1 = true
    ∧ TermMapper.normalize
        (TermMapper.add_mapping smallMapperState ("心梗".data) ("冠心病".data)).2
        ("心梗".data) = ("冠心病".data, true)
    ∧ ("心梗".data : Str) ∈ TermMapper.get_aliases
        (TermMapper.add_mapping smallMapperState ("心梗".data) ("冠心病".data)).2
        ("心肌梗死".data)
    ∧ ("心梗".data : Str) ∈ TermMapper.get_aliases
        (TermMapper.add_mapping smallMapperState ("心梗".data) ("冠心病".data)).2
        ("冠心病".data)
    ∧ (∃ e, dictGet (TermMapper.get_mapping_table
          (TermMapper.add_mapping smallMapperState ("心梗".data) ("冠心病".data)).2)
          ("心肌梗死".data) = some e ∧ ("心梗".data : Str) ∈ e.aliases)
    ∧ (∃ e, dictGet (TermMapper.get_mapping_table
          (TermMapper.add_mapping smallMapperState ("心梗".data) ("冠心病".data)).2)
          ("冠心病".data) = some e ∧ ("心梗".data : Str) ∈ e.aliases) :=
  c10_add_mapping_stale_reverse smallMapperState ("心梗".data) ("冠心病".data)
    ("心肌梗死".data) (by decide) (by decide) (by decide) (by decide) (by decide)
